import Mathlib

/-!
Verification of the QISCET chatbot server (`bot.py`): a Flask app with a
`/status` endpoint backed by a simulated campus-status function and a
`/chat` endpoint that forwards the conversation to an external model API.
The Python source is shallowly embedded below: pure functions become Lean
functions, the exception flow of the `/chat` handler becomes an
`Except`-valued computation mapped to an HTTP response, and the external
API call becomes an explicit parameter describing its outcome.
-/

namespace Bot

/-- One part of a turn in the external API format: an object with a text
field. -/
structure Part where
  text : String
deriving DecidableEq, Repr

/-- One turn in the external API format: a role plus a list of parts. -/
structure ApiTurn where
  role : String
  parts : List Part
deriving DecidableEq, Repr

/-- A caller-supplied history turn, a JSON object in which the role and
text fields may each be present or absent (`none` models a missing key,
whose subscript access raises a KeyError in Python). -/
structure RawTurn where
  role : Option String
  text : Option String
deriving DecidableEq, Repr

/-- The JSON body of a `/chat` request; the handler reads each field with
`data.get` and a default, so each field may be absent. -/
structure ReqBody where
  message : Option String
  history : Option (List RawTurn)
deriving DecidableEq, Repr

/-- A web citation attached to a grounding attribution. -/
structure Web where
  uri : String
  title : String
deriving DecidableEq, Repr

/-- A grounding attribution; `web` may be absent (the code probes it with
getattr, defaulting to None). -/
structure Attribution where
  web : Option Web
deriving DecidableEq, Repr

/-- Grounding metadata; the attributions list may be absent (the code probes
`grounding_attributions` with getattr, defaulting to None). -/
structure GroundingMetadata where
  grounding_attributions : Option (List Attribution)
deriving DecidableEq, Repr

/-- Candidate content: a list of parts. -/
structure Content where
  parts : List Part
deriving DecidableEq, Repr

/-- One response candidate; `content` and `grounding_metadata` may be `None`. -/
structure Candidate where
  content : Option Content
  grounding_metadata : Option GroundingMetadata
deriving DecidableEq, Repr

/-- An external API response: a list of candidates (empty list models both an
empty and an absent `candidates`, which the handler treats alike as falsy). -/
structure Response where
  candidates : List Candidate
deriving DecidableEq, Repr

/-- One entry of the `sources` array: a uri plus a title. -/
structure SourceEntry where
  uri : String
  title : String
deriving DecidableEq, Repr

/-- An exception inside the `/chat` handler: `APIError` from the client
library is caught separately from every other Python exception. -/
inductive PyErr where
  | apiErr (msg : String)
  | pyErr (msg : String)
deriving DecidableEq, Repr

/-- Outcome of `client.models.generate_content`: a response, an `APIError`
with a message, or some other exception. -/
inductive ApiOutcome where
  | ok (resp : Response)
  | apiError (msg : String)
  | otherError (msg : String)
deriving DecidableEq, Repr

/-- The JSON body of an HTTP response produced by the server. -/
inductive RespBody where
  | okBody (response : String) (sources : List SourceEntry)
  | errBody (error : String)
  | jsonBody (data : List (String × String))
deriving DecidableEq, Repr

/-- An HTTP response: status code plus JSON body. -/
structure HttpResponse where
  status : Nat
  body : RespBody
deriving DecidableEq, Repr

/-! ## JSON serialization (model of Python `json.dumps(..., indent=2)`) -/

/-- Lower-case hexadecimal digit. -/
def hexDigit (n : Nat) : Char :=
  if n < 10 then Char.ofNat (48 + n) else Char.ofNat (87 + (n - 10))

/-- Four-digit lower-case hexadecimal rendering, as in a JSON `\u` escape. -/
def hex4 (n : Nat) : String :=
  String.mk [hexDigit (n / 4096 % 16), hexDigit (n / 256 % 16),
             hexDigit (n / 16 % 16), hexDigit (n % 16)]

/-- Escape of a single character inside a JSON string literal, following
`json.dumps` with its default `ensure_ascii=True`. -/
def json_escape_char (c : Char) : String :=
  if c.toNat = 34 then "\\\""
  else if c.toNat = 92 then "\\\\"
  else if c.toNat = 10 then "\\n"
  else if c.toNat = 13 then "\\r"
  else if c.toNat = 9 then "\\t"
  else if c.toNat = 8 then "\\b"
  else if c.toNat = 12 then "\\f"
  else if c.toNat < 32 then "\\u" ++ hex4 c.toNat
  else if c.toNat < 127 then String.singleton c
  else if c.toNat < 65536 then "\\u" ++ hex4 c.toNat
  else "\\u" ++ hex4 (55296 + (c.toNat - 65536) / 1024) ++
       "\\u" ++ hex4 (56320 + (c.toNat - 65536) % 1024)

/-- JSON string literal for `s`. -/
def json_string (s : String) : String :=
  "\"" ++ String.join (s.data.map json_escape_char) ++ "\""

/-- Model of `json.dumps(d, indent=2)` for a flat string-to-string mapping,
with the keys in insertion order as Python dicts preserve it. -/
def json_dumps_indent2 (d : List (String × String)) : String :=
  match d with
  | [] => "\x7b\x7d"
  | _ =>
    "\x7b\n" ++
    String.intercalate ",\n"
      (d.map fun kv => "  " ++ json_string kv.1 ++ ": " ++ json_string kv.2) ++
    "\n\x7d"

/-! ## Status simulator (`get_campus_status`) -/

/-- Header line prepended to the serialized status in the prompt injection. -/
def status_text_header : String :=
  "\n\n# 💡 CURRENT CAMPUS STATUS (Use ONLY for live status queries)\n"

/-- Embedding of `get_campus_status`: from the current hour, the five-metric
snapshot (as an insertion-ordered mapping) and the prompt text block. -/
def get_campus_status (current_hour : Nat) :
    List (String × String) × String :=
  let vals :=
    if 9 ≤ current_hour ∧ current_hour < 16 then
      ("High (85% occupied)", "Moderately Busy", "Degraded (High Load)",
       "Operational (Moderate Speed)", "Main Grid")
    else if 16 ≤ current_hour ∧ current_hour < 20 then
      ("Moderate (50% occupied)", "Quiet Zone", "Operational (Normal)",
       "Operational (Fast Speed)", "Main Grid")
    else
      ("Low (5% occupied/Closed)", "Closed", "Operational (Low Load)",
       "Operational (Low Speed)", "Main Grid")
  let status_data : List (String × String) :=
    [("AI Lab 301 Occupancy", vals.1),
     ("Library Quiet Zone", vals.2.1),
     ("Main Server Health", vals.2.2.1),
     ("Campus Wi-Fi Status", vals.2.2.2.1),
     ("Power Supply", vals.2.2.2.2)]
  let status_text :=
    status_text_header ++ json_dumps_indent2 status_data ++ "\n"
  (status_data, status_text)

/-- The `/status` route: `jsonify(status_data)` with Flask's default 200. -/
def status_route (current_hour : Nat) : HttpResponse :=
  ⟨200, .jsonBody (get_campus_status current_hour).1⟩

/-- The "peak" profile values (hours 9–15). -/
def peak_profile : List (String × String) :=
  [("AI Lab 301 Occupancy", "High (85% occupied)"),
   ("Library Quiet Zone", "Moderately Busy"),
   ("Main Server Health", "Degraded (High Load)"),
   ("Campus Wi-Fi Status", "Operational (Moderate Speed)"),
   ("Power Supply", "Main Grid")]

/-- The "evening" profile values (hours 16–19). -/
def evening_profile : List (String × String) :=
  [("AI Lab 301 Occupancy", "Moderate (50% occupied)"),
   ("Library Quiet Zone", "Quiet Zone"),
   ("Main Server Health", "Operational (Normal)"),
   ("Campus Wi-Fi Status", "Operational (Fast Speed)"),
   ("Power Supply", "Main Grid")]

/-- The "off-hours" profile values (all remaining hours). -/
def off_hours_profile : List (String × String) :=
  [("AI Lab 301 Occupancy", "Low (5% occupied/Closed)"),
   ("Library Quiet Zone", "Closed"),
   ("Main Server Health", "Operational (Low Load)"),
   ("Campus Wi-Fi Status", "Operational (Low Speed)"),
   ("Power Supply", "Main Grid")]

/-! ## Start-up (API key check and client construction) -/

/-- Embedding of the start-up sequence: read `BOT_API_KEY` (absent or empty
is falsy and raises a ValueError), then construct the Gemini client (whose
constructor may itself raise, aborting start-up). On success the process
serves requests with an initialized client, recorded as `true`. -/
def startup (api_key : Option String)
    (construct_client : String → Except String Unit) : Except String Bool :=
  match api_key with
  | none =>
    .error "The BOT_API_KEY environment variable is not set. Cannot initialize Gemini Client."
  | some k =>
    if k = "" then
      .error "The BOT_API_KEY environment variable is not set. Cannot initialize Gemini Client."
    else
      (construct_client k).map fun _ => true

/-! ## Chat gateway (`/chat` handler) -/

/-- The generic error message used both for an uninitialized client and for
any unexpected Python error in the handler. -/
def generic_error_msg : String :=
  "An unexpected server error occurred. Please check the terminal for details."

/-- The fixed prefix of the user-facing message for an external APIError. -/
def api_error_lead : String :=
  "The Gemini AI service is currently unavailable. (API Error: "

/-- Model of the Python slice `s[:50]`: the first 50 characters. -/
def py_slice50 (s : String) : String := ⟨s.data.take 50⟩

/-- Text of the system prompt before the interpolated transportation data. -/
def prompt_before_transport : String :=
  "\n        You are QIS Bot, the official AI Admissions Counselor for QIS College of Engineering and Technology (QISCET), Ongole.\n        Your mission is to provide concise, accurate, and helpful information to prospective students.\n        \n        CRITICAL INSTRUCTIONS:\n        1. **Be Concise:** Keep answers brief (2-3 sentences max) and professional.\n        2. **Use Search Tool:** Use the Google Search tool for current, general information (like admissions, specific courses, fees, and job placements).\n        3. **Use Embedded Data:** Use the provided TRANSPORTATION DATA and CAMPUS STATUS below to answer specific questions.\n        4. **Maintain Persona:** Maintain a friendly, supportive tone.\n        \n        ---\n        \n        # 📚 QISCET KEY FACTS\n        - Location: Vengamukkapalem, Ongole, Prakasam District, Andhra Pradesh.\n        - Affiliation: Jawaharlal Nehru Technological University (JNTUK), Kakinada.\n        - Programs: B.Tech (CSE, ECE, EEE, Mechanical, Civil, IT, AI & ML, Data Science), M.Tech, MBA, MCA.\n        \n        ---\n        \n        # 🚌 TRANSPORTATION DATA (Use ONLY for bus/route/driver queries)\n        "

/-- Text of the system prompt between the transportation data and the
campus-status block. -/
def prompt_between : String := "\n        \n        ---\n        \n        "

/-- Text of the system prompt after the campus-status block. -/
def prompt_after : String := "\n        \n        "

/-- Embedding of the f-string that assembles the system prompt from the
loaded transportation data and the status text block. -/
def system_prompt (transport status_text : String) : String :=
  prompt_before_transport ++ transport ++ prompt_between ++ status_text ++
    prompt_after

/-- Translation of one history turn into the API format; a missing role or
text key raises a KeyError (a generic Python exception). -/
def translate_turn (m : RawTurn) : Except PyErr ApiTurn :=
  match m.role with
  | none => .error (.pyErr "KeyError: role")
  | some r =>
    match m.text with
    | none => .error (.pyErr "KeyError: text")
    | some t => .ok ⟨r, [⟨t⟩]⟩

/-- The for-loop over the history: each turn translated in order, the first
raised KeyError aborting the loop. -/
def translate_history : List RawTurn → Except PyErr (List ApiTurn)
  | [] => .ok []
  | m :: rest => do
    let a ← translate_turn m
    let as ← translate_history rest
    pure (a :: as)

/-- The construction of `full_history`: each history turn translated in
order, then the new user message appended as a final user-role turn. -/
def build_full_history (history : List RawTurn) (user_message : String) :
    Except PyErr (List ApiTurn) := do
  let hs ← translate_history history
  pure (hs ++ [⟨"user", [⟨user_message⟩]⟩])

/-- The source-list comprehension over grounding attributions: keep those
with a web citation whose uri and title are both truthy (non-empty). The
comprehension is guarded by truthiness of the metadata object and of the
attributions list, and a missing attribute defaults to None. -/
def extract_sources (cand : Candidate) : List SourceEntry :=
  match cand.grounding_metadata with
  | none => []
  | some gm =>
    match gm.grounding_attributions with
    | none => []
    | some [] => []
    | some attrs =>
      attrs.filterMap fun attr =>
        match attr.web with
        | none => none
        | some w =>
          if w.uri ≠ "" ∧ w.title ≠ "" then some ⟨w.uri, w.title⟩ else none

/-- Step 5 of the handler: `response_text` and `sources` start empty; when a
first candidate with content exists, the text of its first part is taken
(indexing an empty parts list raises an IndexError) and the sources are
extracted; an empty final text raises a generic exception. -/
def extract_response (resp : Response) :
    Except PyErr (String × List SourceEntry) := do
  let pair ←
    match resp.candidates with
    | [] => pure ("", ([] : List SourceEntry))
    | cand :: _ =>
      match cand.content with
      | none => pure ("", ([] : List SourceEntry))
      | some content =>
        match content.parts with
        | [] => Except.error (.pyErr "IndexError: list index out of range")
        | p :: _ => pure (p.text, extract_sources cand)
  if pair.1 = "" then
    Except.error (.pyErr "API returned an empty text response.")
  else
    pure pair

/-- Combination of the API call outcome with the response processing: an
APIError propagates as such, any other client failure as a generic Python
exception, and a response goes through extraction. -/
def handle_outcome (out : ApiOutcome) :
    Except PyErr (String × List SourceEntry) :=
  match out with
  | .ok resp => extract_response resp
  | .apiError m => .error (.apiErr m)
  | .otherError m => .error (.pyErr m)

/-- The except-clauses of the handler: a successful body returns 200 with
response and sources; an APIError returns 500 with the truncated excerpt;
every other exception returns 500 with the generic message. -/
def respond : Except PyErr (String × List SourceEntry) → HttpResponse
  | .ok pair => ⟨200, .okBody pair.1 pair.2⟩
  | .error (.apiErr m) =>
    ⟨500, .errBody (api_error_lead ++ py_slice50 m ++ "...)")⟩
  | .error (.pyErr _) => ⟨500, .errBody generic_error_msg⟩

/-- Embedding of the `/chat` handler. The external call is a parameter `api`
from the submitted turn sequence and system prompt to an outcome, so that a
single synchronous call at exactly those arguments is visible in the model.
A `false` client flag models a client handle that is None. -/
def chat (client_initialized : Bool) (transport : String) (current_hour : Nat)
    (body : ReqBody) (api : List ApiTurn → String → ApiOutcome) :
    HttpResponse :=
  if client_initialized = false then
    ⟨500, .errBody generic_error_msg⟩
  else
    respond (do
      let user_message := body.message.getD ""
      let history := body.history.getD []
      let status_text := (get_campus_status current_hour).2
      let sp := system_prompt transport status_text
      let full_history ← build_full_history history user_message
      handle_outcome (api full_history sp))

/-! ## Spec-side formulations used for refinement comparisons -/

/-- The five metric names of the campus status snapshot, in order. -/
def five_status_keys : List String :=
  ["AI Lab 301 Occupancy", "Library Quiet Zone", "Main Server Health",
   "Campus Wi-Fi Status", "Power Supply"]

/-- Spec formulation: an attribution exposes a web citation with a non-empty
uri and a non-empty title. -/
def has_full_web_citation (a : Attribution) : Bool :=
  match a.web with
  | some w => !(w.uri == "") && !(w.title == "")
  | none => false

/-- Spec formulation: the source entry of an attribution (uri and title of
its web citation). -/
def citation_of (a : Attribution) : SourceEntry :=
  match a.web with
  | some w => ⟨w.uri, w.title⟩
  | none => ⟨"", ""⟩

/-! ## Helper lemmas -/

/-- The snapshot mapping is always one of the three profiles. -/
theorem get_campus_status_data_cases (h : Nat) :
    (get_campus_status h).1 = peak_profile ∨
    (get_campus_status h).1 = evening_profile ∨
    (get_campus_status h).1 = off_hours_profile := by
  unfold get_campus_status
  by_cases h1 : 9 ≤ h ∧ h < 16
  · left; simp [h1, peak_profile]
  · by_cases h2 : 16 ≤ h ∧ h < 20
    · right; left; simp [h1, h2, evening_profile]
    · right; right; simp [h1, h2, off_hours_profile]

/-- Translating a history whose turns all carry a role and a text succeeds
and is the elementwise translation. -/
theorem translate_history_eq_map (l : List RawTurn)
    (hc : ∀ t ∈ l, t.role.isSome ∧ t.text.isSome) :
    translate_history l =
      Except.ok (l.map fun t =>
        ApiTurn.mk (t.role.getD "") [⟨t.text.getD ""⟩]) := by
  induction l with
  | nil => rfl
  | cons a l ih =>
    obtain ⟨hr, ht⟩ := hc a (List.mem_cons_self a l)
    obtain ⟨r, hr⟩ := Option.isSome_iff_exists.mp hr
    obtain ⟨t, ht⟩ := Option.isSome_iff_exists.mp ht
    have ihl := ih fun x hx => hc x (List.mem_cons_of_mem a hx)
    simp only [translate_history, translate_turn, hr, ht, ihl, List.map_cons,
      Option.getD_some]
    rfl

/-- Reduction of a successful bind in the error monad of the handler. -/
@[simp] theorem ok_bind {α β : Type} (x : α) (f : α → Except PyErr β) :
    (Except.ok x >>= f) = f x := rfl

/-- Reduction of a failed bind in the error monad of the handler. -/
@[simp] theorem error_bind {α β : Type} (e : PyErr)
    (f : α → Except PyErr β) :
    ((Except.error e : Except PyErr α) >>= f) = Except.error e := rfl

/-- A turn translation only fails with a generic Python exception. -/
theorem translate_turn_error_pyErr (m : RawTurn) (e : PyErr)
    (h : translate_turn m = .error e) : ∃ s, e = .pyErr s := by
  unfold translate_turn at h
  cases hr : m.role with
  | none => rw [hr] at h; exact ⟨"KeyError: role", (Except.error.inj h).symm⟩
  | some r =>
    rw [hr] at h
    cases ht : m.text with
    | none => rw [ht] at h; exact ⟨"KeyError: text", (Except.error.inj h).symm⟩
    | some t => rw [ht] at h; exact absurd h (by simp)

/-- A successful turn translation means both fields were present. -/
theorem translate_turn_ok_some (m : RawTurn) (b : ApiTurn)
    (h : translate_turn m = .ok b) : m.role.isSome ∧ m.text.isSome := by
  unfold translate_turn at h
  cases hr : m.role with
  | none => rw [hr] at h; exact absurd h (by simp)
  | some r =>
    rw [hr] at h
    cases ht : m.text with
    | none => rw [ht] at h; exact absurd h (by simp)
    | some t => exact ⟨by simp [hr], by simp [ht]⟩

/-- A failed history translation only fails with a generic Python
exception. -/
theorem translate_history_error_pyErr (l : List RawTurn) (e : PyErr)
    (h : translate_history l = .error e) : ∃ s, e = .pyErr s := by
  induction l generalizing e with
  | nil => exact absurd h (by simp [translate_history])
  | cons a l ih =>
    cases hta : translate_turn a with
    | error e' =>
      have he : e' = e := by
        simpa [translate_history, hta] using h
      obtain ⟨s, hs⟩ := translate_turn_error_pyErr a e' hta
      exact ⟨s, he ▸ hs⟩
    | ok b =>
      cases htl : translate_history l with
      | error e' =>
        have he : e' = e := by
          simpa [translate_history, hta, htl] using h
        obtain ⟨s, hs⟩ := ih e' htl
        exact ⟨s, he ▸ hs⟩
      | ok bs =>
        exact absurd h (by simp [translate_history, hta, htl])

/-- Building the full history only fails with a generic Python exception. -/
theorem build_full_history_error_pyErr (l : List RawTurn) (m : String)
    (e : PyErr) (h : build_full_history l m = .error e) :
    ∃ s, e = .pyErr s := by
  unfold build_full_history at h
  cases ht : translate_history l with
  | error e' =>
    have he : e' = e := by simpa [ht] using h
    exact he ▸ translate_history_error_pyErr l e' ht
  | ok bs => exact absurd h (by simp [ht])

/-- A history containing a turn with a missing role or text fails to
translate, with a generic Python exception. -/
theorem translate_history_missing_fails (l : List RawTurn) (turn : RawTurn)
    (hmem : turn ∈ l) (hmiss : turn.role = none ∨ turn.text = none) :
    ∃ s, translate_history l = .error (.pyErr s) := by
  induction l with
  | nil => exact absurd hmem (List.not_mem_nil turn)
  | cons a l ih =>
    cases hta : translate_turn a with
    | error e =>
      obtain ⟨s, hs⟩ := translate_turn_error_pyErr a e hta
      exact ⟨s, by simp [translate_history, hta, hs]⟩
    | ok b =>
      have hmem' : turn ∈ l := by
        rcases List.mem_cons.mp hmem with heq | hml
        · exfalso
          obtain ⟨hr, ht⟩ := translate_turn_ok_some a b hta
          rcases hmiss with hm | hm <;> rw [heq] at hm
          · rw [hm] at hr; exact absurd hr (by simp)
          · rw [hm] at ht; exact absurd ht (by simp)
        · exact hml
      obtain ⟨s, hs⟩ := ih hmem'
      exact ⟨s, by simp [translate_history, hta, hs]⟩

/-- Unfolding of the chat handler when the client is initialized. -/
theorem chat_true_unfold (transport : String) (hour : Nat) (body : ReqBody)
    (api : List ApiTurn → String → ApiOutcome) :
    chat true transport hour body api =
      respond
        (build_full_history (body.history.getD [])
            (body.message.getD "") >>= fun fh =>
          handle_outcome
            (api fh (system_prompt transport (get_campus_status hour).2))) :=
  rfl

/-- When the history fails to translate, the handler answers with the
generic 500 response. -/
theorem chat_true_build_error (transport : String) (hour : Nat)
    (body : ReqBody) (api : List ApiTurn → String → ApiOutcome) (s : String)
    (h : build_full_history (body.history.getD [])
        (body.message.getD "") = .error (.pyErr s)) :
    chat true transport hour body api = ⟨500, .errBody generic_error_msg⟩ := by
  rw [chat_true_unfold, h]
  rfl

/-- The list comprehension over attributions equals the spec formulation:
filter to the attributions with a full web citation, then map each to its
source entry. -/
theorem sources_filterMap_eq_filter_map (attrs : List Attribution) :
    (attrs.filterMap fun attr =>
      match attr.web with
      | none => none
      | some w =>
        if w.uri ≠ "" ∧ w.title ≠ "" then
          some (⟨w.uri, w.title⟩ : SourceEntry)
        else none) =
    (attrs.filter has_full_web_citation).map citation_of := by
  induction attrs with
  | nil => rfl
  | cons a l ih =>
    rw [List.filterMap_cons, List.filter_cons]
    cases hw : a.web with
    | none => simp [has_full_web_citation, hw, ih]
    | some w =>
      by_cases hu : w.uri = ""
      · simp [has_full_web_citation, hw, hu, ih]
      · by_cases ht : w.title = ""
        · simp [has_full_web_citation, hw, hu, ht, ih]
        · simp [has_full_web_citation, hw, hu, ht, ih, citation_of]

/-! ## Claim theorems -/

/-- C2: the Status Simulator returns the peak profile exactly for hours in
[9,16), the evening profile exactly for hours in [16,20), and the off-hours
profile for every other hour of the day, with the stated boundary hours
falling in the stated branches. -/
theorem campus_status_profile_branches :
    (∀ h : Nat, h < 24 →
      (((get_campus_status h).1 = peak_profile) ↔ (9 ≤ h ∧ h < 16)) ∧
      (((get_campus_status h).1 = evening_profile) ↔ (16 ≤ h ∧ h < 20)) ∧
      (((get_campus_status h).1 = off_hours_profile) ↔ (h < 9 ∨ 20 ≤ h))) ∧
    (get_campus_status 8).1 = off_hours_profile ∧
    (get_campus_status 9).1 = peak_profile ∧
    (get_campus_status 15).1 = peak_profile ∧
    (get_campus_status 16).1 = evening_profile ∧
    (get_campus_status 19).1 = evening_profile ∧
    (get_campus_status 20).1 = off_hours_profile ∧
    (get_campus_status 23).1 = off_hours_profile ∧
    (get_campus_status 0).1 = off_hours_profile := by
  constructor
  · decide
  · decide

/-- Witness for C2 at the concrete hour 10. -/
theorem campus_status_profile_branches_witness :
    (get_campus_status 10).1 = peak_profile :=
  ((campus_status_profile_branches.1 10 (by decide)).1).2 (by decide)

/-- C1: for every well-formed history and new message, the submitted turn
sequence has length one more than the history, begins with the history turns
in order with role and text preserved (the text wrapped as the single part
of the turn), ends with a user-role turn carrying the new message, and the
chat handler submits exactly this sequence to the external API. -/
theorem chat_submits_history_plus_user (history : List RawTurn)
    (msg : String) (transport : String) (hour : Nat)
    (api : List ApiTurn → String → ApiOutcome)
    (hc : ∀ t ∈ history, t.role.isSome ∧ t.text.isSome) :
    ∃ contents : List ApiTurn,
      build_full_history history msg = .ok contents ∧
      contents.length = history.length + 1 ∧
      List.Forall₂
        (fun (t : RawTurn) (a : ApiTurn) =>
          t.role = some a.role ∧ ∃ tx, t.text = some tx ∧ a.parts = [⟨tx⟩])
        history (contents.take history.length) ∧
      contents.getLast? = some ⟨"user", [⟨msg⟩]⟩ ∧
      chat true transport hour ⟨some msg, some history⟩ api =
        respond (handle_outcome (api contents
          (system_prompt transport (get_campus_status hour).2))) := by
  refine ⟨(history.map fun t =>
      ApiTurn.mk (t.role.getD "") [⟨t.text.getD ""⟩]) ++ [⟨"user", [⟨msg⟩]⟩],
    ?_, ?_, ?_, ?_, ?_⟩
  · unfold build_full_history
    rw [translate_history_eq_map history hc]
    rfl
  · simp
  · have hlen : history.length =
        (history.map fun t =>
          ApiTurn.mk (t.role.getD "") [⟨t.text.getD ""⟩]).length := by simp
    rw [hlen, List.take_left]
    rw [List.forall₂_map_right_iff, List.forall₂_same]
    intro t htm
    obtain ⟨hr, ht⟩ := hc t htm
    obtain ⟨r, hr⟩ := Option.isSome_iff_exists.mp hr
    obtain ⟨tx, ht⟩ := Option.isSome_iff_exists.mp ht
    exact ⟨by simp [hr], tx, ht, by simp [ht]⟩
  · simp [List.getLast?_append]
  · unfold chat
    simp only [Bool.true_eq_false, if_false]
    unfold build_full_history
    simp only [Option.getD_some]
    rw [translate_history_eq_map history hc]
    rfl

/-- Witness for C1: a history of two complete turns and a concrete message. -/
theorem chat_submits_history_plus_user_witness :
    ∃ contents : List ApiTurn,
      build_full_history
        [⟨some "user", some "hello"⟩, ⟨some "model", some "hi there"⟩]
        "What bus goes to Ongole?" = .ok contents ∧
      contents.length =
        ([⟨some "user", some "hello"⟩,
          (⟨some "model", some "hi there"⟩ : RawTurn)] : List RawTurn).length
          + 1 ∧
      List.Forall₂
        (fun (t : RawTurn) (a : ApiTurn) =>
          t.role = some a.role ∧ ∃ tx, t.text = some tx ∧ a.parts = [⟨tx⟩])
        [⟨some "user", some "hello"⟩, ⟨some "model", some "hi there"⟩]
        (contents.take 2) ∧
      contents.getLast? = some ⟨"user", [⟨"What bus goes to Ongole?"⟩]⟩ ∧
      chat true "ROUTE 1: Ongole" 10
          ⟨some "What bus goes to Ongole?",
           some [⟨some "user", some "hello"⟩, ⟨some "model", some "hi there"⟩]⟩
          (fun _ _ => .ok ⟨[]⟩) =
        respond (handle_outcome ((fun _ _ => ApiOutcome.ok ⟨[]⟩) contents
          (system_prompt "ROUTE 1: Ongole" (get_campus_status 10).2))) :=
  chat_submits_history_plus_user
    [⟨some "user", some "hello"⟩, ⟨some "model", some "hi there"⟩]
    "What bus goes to Ongole?" "ROUTE 1: Ongole" 10
    (fun _ _ => .ok ⟨[]⟩) (by decide)

/-- C3: when the external client raises an APIError during the call, the
handler returns status 500 with the fixed prefix followed by at most 50
characters of the underlying message (and the literal closing suffix). -/
theorem chat_api_error_truncated (transport : String) (hour : Nat)
    (body : ReqBody) (emsg : String) (contents : List ApiTurn)
    (hbuild : build_full_history (body.history.getD [])
        (body.message.getD "") = .ok contents) :
    chat true transport hour body (fun _ _ => .apiError emsg) =
      ⟨500, .errBody (api_error_lead ++ py_slice50 emsg ++ "...)")⟩ ∧
    (py_slice50 emsg).length ≤ 50 := by
  constructor
  · rw [chat_true_unfold, hbuild]
    rfl
  · show (emsg.data.take 50).length ≤ 50
    exact List.length_take_le 50 emsg.data

/-- Witness for C3 at the provider message about rate limiting (shorter
than 50 characters, hence kept whole). -/
theorem chat_api_error_truncated_witness :
    chat true "T" 10 ⟨some "hi", some []⟩
        (fun _ _ => .apiError "rate limited: too many requests") =
      ⟨500, .errBody (api_error_lead ++
        py_slice50 "rate limited: too many requests" ++ "...)")⟩ ∧
    (py_slice50 "rate limited: too many requests").length ≤ 50 :=
  chat_api_error_truncated "T" 10 ⟨some "hi", some []⟩
    "rate limited: too many requests" [⟨"user", [⟨"hi"⟩]⟩] rfl

/-- C4: when the external API response has no candidates, or its first
candidate has no content, the handler returns status 500 with an error
body, never a success body. -/
theorem chat_empty_candidates_500 (transport : String) (hour : Nat)
    (body : ReqBody) (resp : Response)
    (hresp : resp.candidates = [] ∨
      ∃ c cs, resp.candidates = c :: cs ∧ c.content = none) :
    chat true transport hour body (fun _ _ => .ok resp) =
      ⟨500, .errBody generic_error_msg⟩ ∧
    ∀ r s, chat true transport hour body (fun _ _ => .ok resp) ≠
      ⟨200, .okBody r s⟩ := by
  have hmain : chat true transport hour body (fun _ _ => .ok resp) =
      ⟨500, .errBody generic_error_msg⟩ := by
    cases hbuild : build_full_history (body.history.getD [])
        (body.message.getD "") with
    | error e =>
      obtain ⟨s, hs⟩ := build_full_history_error_pyErr _ _ e hbuild
      exact chat_true_build_error transport hour body _ s (hs ▸ hbuild)
    | ok contents =>
      rw [chat_true_unfold, hbuild, ok_bind]
      rcases hresp with hr | ⟨c, cs, hr, hcont⟩
      · simp [handle_outcome, extract_response, hr, respond]
      · simp [handle_outcome, extract_response, hr, hcont, respond]
  refine ⟨hmain, fun r s hcontra => ?_⟩
  rw [hmain] at hcontra
  exact absurd (HttpResponse.mk.inj hcontra).1 (by decide)

/-- Witness for C4 at a response whose candidate list is empty. -/
theorem chat_empty_candidates_500_witness :
    chat true "T" 10 ⟨some "hi", some []⟩ (fun _ _ => .ok ⟨[]⟩) =
      ⟨500, .errBody generic_error_msg⟩ ∧
    ∀ r s, chat true "T" 10 ⟨some "hi", some []⟩ (fun _ _ => .ok ⟨[]⟩) ≠
      ⟨200, .okBody r s⟩ :=
  chat_empty_candidates_500 "T" 10 ⟨some "hi", some []⟩ ⟨[]⟩ (Or.inl rfl)

/-- C5: for a response whose first candidate has text, the returned sources
are exactly the attributions exposing a web citation with non-empty uri and
non-empty title, in API order, mapped to their uri and title, with status
200; and missing or malformed grounding metadata degrades to an empty
sources list while the request still succeeds. -/
theorem chat_grounding_sources
    (transport : String) (hour : Nat) (body : ReqBody)
    (contents : List ApiTurn)
    (hbuild : build_full_history (body.history.getD [])
        (body.message.getD "") = .ok contents)
    (cand : Candidate) (cs : List Candidate) (content : Content)
    (p : Part) (ps : List Part)
    (hcontent : cand.content = some content)
    (hparts : content.parts = p :: ps)
    (htext : p.text ≠ "") :
    (∀ attrs : List Attribution,
      cand.grounding_metadata = some ⟨some attrs⟩ →
      chat true transport hour body (fun _ _ => .ok ⟨cand :: cs⟩) =
        ⟨200, .okBody p.text
          ((attrs.filter has_full_web_citation).map citation_of)⟩) ∧
    (cand.grounding_metadata = none →
      chat true transport hour body (fun _ _ => .ok ⟨cand :: cs⟩) =
        ⟨200, .okBody p.text []⟩) ∧
    (cand.grounding_metadata = some ⟨none⟩ →
      chat true transport hour body (fun _ _ => .ok ⟨cand :: cs⟩) =
        ⟨200, .okBody p.text []⟩) := by
  have hbase : ∀ srcs : List SourceEntry, extract_sources cand = srcs →
      chat true transport hour body (fun _ _ => .ok ⟨cand :: cs⟩) =
        ⟨200, .okBody p.text srcs⟩ := by
    intro srcs hsrc
    rw [chat_true_unfold, hbuild, ok_bind]
    simp [handle_outcome, extract_response, hcontent, hparts, htext, hsrc,
      respond]
    rfl
  refine ⟨?_, ?_, ?_⟩
  · intro attrs hgm
    cases attrs with
    | nil => exact hbase [] (by simp [extract_sources, hgm])
    | cons a as =>
      refine hbase _ ?_
      rw [← sources_filterMap_eq_filter_map]
      simp [extract_sources, hgm]
  · intro hgm
    exact hbase [] (by simp [extract_sources, hgm])
  · intro hgm
    exact hbase [] (by simp [extract_sources, hgm])

/-- Witness for C5: one full citation, one citation lacking a title (which
is excluded), and one attribution without a web citation. -/
theorem chat_grounding_sources_witness :
    chat true "T" 10 ⟨some "hi", some []⟩
        (fun _ _ => .ok ⟨[⟨some ⟨[⟨"ans"⟩]⟩,
          some ⟨some [⟨some ⟨"https://a", "A"⟩⟩, ⟨some ⟨"https://b", ""⟩⟩,
                      ⟨none⟩]⟩⟩]⟩) =
      ⟨200, .okBody "ans"
        ((([⟨some ⟨"https://a", "A"⟩⟩, ⟨some ⟨"https://b", ""⟩⟩,
            ⟨none⟩] : List Attribution).filter
              has_full_web_citation).map citation_of)⟩ ∧
    (([⟨some ⟨"https://a", "A"⟩⟩, ⟨some ⟨"https://b", ""⟩⟩,
       ⟨none⟩] : List Attribution).filter has_full_web_citation).map
        citation_of = [⟨"https://a", "A"⟩] :=
  ⟨(chat_grounding_sources "T" 10 ⟨some "hi", some []⟩
      [⟨"user", [⟨"hi"⟩]⟩] rfl
      ⟨some ⟨[⟨"ans"⟩]⟩,
       some ⟨some [⟨some ⟨"https://a", "A"⟩⟩, ⟨some ⟨"https://b", ""⟩⟩,
                   ⟨none⟩]⟩⟩ [] ⟨[⟨"ans"⟩]⟩ ⟨"ans"⟩ []
      rfl rfl (by decide)).1
    [⟨some ⟨"https://a", "A"⟩⟩, ⟨some ⟨"https://b", ""⟩⟩, ⟨none⟩] rfl,
   by decide⟩

/-- C8: for every hour, the status route succeeds with status 200 and a JSON
mapping having exactly the five documented keys, each mapped to a (non-empty)
string. -/
theorem status_route_five_keys (h : Nat) :
    (status_route h).status = 200 ∧
    (status_route h).body = RespBody.jsonBody (get_campus_status h).1 ∧
    (get_campus_status h).1.map Prod.fst = five_status_keys ∧
    ∀ kv ∈ (get_campus_status h).1, kv.2 ≠ "" := by
  refine ⟨rfl, rfl, ?_, ?_⟩ <;>
    rcases get_campus_status_data_cases h with hc | hc | hc <;>
      rw [hc] <;> decide

set_option maxRecDepth 4096 in
/-- C9: for every hour, the prompt text block equals the fixed header line
followed by the indented JSON serialization of exactly the snapshot mapping
returned alongside it, so both renderings carry identical names and values. -/
theorem status_text_agrees_with_snapshot :
    (∀ h : Nat,
      (get_campus_status h).2 =
        status_text_header ++
          json_dumps_indent2 (get_campus_status h).1 ++ "\n") ∧
    (get_campus_status 10).2 =
      "\n\n# 💡 CURRENT CAMPUS STATUS (Use ONLY for live status queries)\n\x7b\n  \"AI Lab 301 Occupancy\": \"High (85% occupied)\",\n  \"Library Quiet Zone\": \"Moderately Busy\",\n  \"Main Server Health\": \"Degraded (High Load)\",\n  \"Campus Wi-Fi Status\": \"Operational (Moderate Speed)\",\n  \"Power Supply\": \"Main Grid\"\n\x7d\n" :=
  ⟨fun _ => rfl, by decide⟩

/-- C6: every non-APIError failure during request handling is caught and
mapped to status 500 with the generic error message, and every chat result
is either a 200 success body or a 500 error body — nothing propagates
uncaught. Covers a history turn lacking a role or text key and an empty
extracted answer text. -/
theorem chat_catches_all_failures :
    (∀ (ci : Bool) (transport : String) (hour : Nat) (body : ReqBody)
        (api : List ApiTurn → String → ApiOutcome),
      (∃ r s, chat ci transport hour body api = ⟨200, .okBody r s⟩) ∨
      (∃ m, chat ci transport hour body api = ⟨500, .errBody m⟩)) ∧
    (∀ (transport : String) (hour : Nat) (body : ReqBody)
        (api : List ApiTurn → String → ApiOutcome) (turn : RawTurn),
      turn ∈ body.history.getD [] →
      turn.role = none ∨ turn.text = none →
      chat true transport hour body api =
        ⟨500, .errBody generic_error_msg⟩) ∧
    (∀ (transport : String) (hour : Nat) (body : ReqBody)
        (cand : Candidate) (cs : List Candidate) (content : Content)
        (ps : List Part),
      cand.content = some content →
      content.parts = ⟨""⟩ :: ps →
      chat true transport hour body (fun _ _ => .ok ⟨cand :: cs⟩) =
        ⟨500, .errBody generic_error_msg⟩) := by
  refine ⟨?_, ?_, ?_⟩
  · intro ci transport hour body api
    cases ci with
    | false => exact Or.inr ⟨generic_error_msg, rfl⟩
    | true =>
      rw [chat_true_unfold]
      rcases hres : build_full_history (body.history.getD [])
          (body.message.getD "") >>= fun fh =>
          handle_outcome
            (api fh (system_prompt transport (get_campus_status hour).2))
        with e | pair
      · cases e with
        | apiErr m => exact Or.inr ⟨_, rfl⟩
        | pyErr m => exact Or.inr ⟨_, rfl⟩
      · exact Or.inl ⟨pair.1, pair.2, rfl⟩
  · intro transport hour body api turn hmem hmiss
    obtain ⟨s, hs⟩ := translate_history_missing_fails _ turn hmem hmiss
    apply chat_true_build_error transport hour body api s
    unfold build_full_history
    rw [hs]
    rfl
  · intro transport hour body cand cs content ps hcontent hparts
    cases hbuild : build_full_history (body.history.getD [])
        (body.message.getD "") with
    | error e =>
      obtain ⟨s, hs⟩ := build_full_history_error_pyErr _ _ e hbuild
      exact chat_true_build_error transport hour body _ s (hs ▸ hbuild)
    | ok contents =>
      rw [chat_true_unfold, hbuild, ok_bind]
      simp [handle_outcome, extract_response, hcontent, hparts, respond]

/-- Witness for C6: a history turn lacking its text key yields the generic
500 response. -/
theorem chat_catches_all_failures_witness :
    chat true "T" 10 ⟨some "hi", some [⟨some "user", none⟩]⟩
        (fun _ _ => .ok ⟨[]⟩) =
      ⟨500, .errBody generic_error_msg⟩ :=
  chat_catches_all_failures.2.1 "T" 10 ⟨some "hi", some [⟨some "user", none⟩]⟩
    (fun _ _ => .ok ⟨[]⟩) ⟨some "user", none⟩ (by decide) (Or.inr rfl)

/-- C7: with an uninitialized client every chat request short-circuits to
the generic 500 response, independently of the external API; and start-up
only ever completes with an initialized client, so the branch is
unreachable for a served request. -/
theorem chat_uninitialized_short_circuits :
    (∀ (transport : String) (hour : Nat) (body : ReqBody)
        (api : List ApiTurn → String → ApiOutcome),
      chat false transport hour body api =
        ⟨500, .errBody generic_error_msg⟩) ∧
    (∀ (transport : String) (hour : Nat) (body : ReqBody)
        (api api' : List ApiTurn → String → ApiOutcome),
      chat false transport hour body api =
        chat false transport hour body api') ∧
    (∀ (api_key : Option String) (construct : String → Except String Unit)
        (b : Bool), startup api_key construct = .ok b → b = true) := by
  refine ⟨fun _ _ _ _ => rfl, fun _ _ _ _ _ => rfl, ?_⟩
  intro api_key construct b h
  cases api_key with
  | none => simp [startup] at h
  | some k =>
    by_cases hk : k = ""
    · simp [startup, hk] at h
    · simp only [startup, hk, if_neg, ite_false] at h
      cases hc : construct k with
      | ok u =>
        rw [hc] at h
        simpa using (Except.ok.inj h).symm
      | error e =>
        rw [hc] at h
        exact absurd h (by simp [Except.map])

/-- Witness for C7: a successful start-up yields an initialized client. -/
theorem chat_uninitialized_short_circuits_witness :
    chat false "T" 0 ⟨none, none⟩ (fun _ _ => .ok ⟨[]⟩) =
      ⟨500, .errBody generic_error_msg⟩ ∧
    (true : Bool) = true :=
  ⟨chat_uninitialized_short_circuits.1 "T" 0 ⟨none, none⟩ (fun _ _ => .ok ⟨[]⟩),
   chat_uninitialized_short_circuits.2.2 (some "key") (fun _ => .ok ()) true
     rfl⟩

/-- C10: a request body missing both optional fields defaults the message
to the empty string and the history to the empty sequence, and the handler
proceeds to the external call with the single empty user turn. -/
theorem chat_missing_fields_default (transport : String) (hour : Nat)
    (api : List ApiTurn → String → ApiOutcome) :
    build_full_history ((⟨none, none⟩ : ReqBody).history.getD [])
        ((⟨none, none⟩ : ReqBody).message.getD "") =
      .ok [⟨"user", [⟨""⟩]⟩] ∧
    chat true transport hour ⟨none, none⟩ api =
      respond (handle_outcome (api [⟨"user", [⟨""⟩]⟩]
        (system_prompt transport (get_campus_status hour).2))) :=
  ⟨rfl, rfl⟩

end Bot
